import Mathlib

/-!
# Verification of the EXIF-stripping core (`exif/exif.go`)

Shallow embedding of the `exif` package of `mattermost-exif-plugin`:
byte buffers are `List Nat` (one entry per byte), Go's `binary.ByteOrder`
is the two-valued `ByteOrder`, Go's 16-bit signed arithmetic is modelled
as `Int` arithmetic wrapped into `[-32768, 32767]` after every operation,
and fallible operations return explicit result types.  Go run-time panics
(slice bounds out of range, `make` with negative length) are modelled as
an explicit `panicked` outcome; a slice expression `s[k:]` panics exactly
when `k` is negative or exceeds `len s` (the omitted high bound defaults
to the length, so capacity never enters these checks).

Slice aliasing is modelled where it is observable.  In `removeFirstIFD`
the spliced value `append(raw[:ifdOffset], raw[exifdEnd:]...)` may reuse
`raw`'s backing array, but the produced value is the same either way
(Go's `append` copies overlapping ranges like `memmove`) and `raw` is
never read afterwards, so the splice is modelled as a pure value.  In
`purgeDirs`, however, `result` starts as `raw` itself and the reader
re-reads the array on every iteration, so splices that land in place are
visible to later reads; its state model therefore mutates a single
shared buffer (see `purgeStep` for why the in-place/reallocate choice,
which depends on the unknowable capacity, never affects the outcome).
-/

namespace ExifGo

/-- Go `binary.ByteOrder`: `binary.LittleEndian` / `binary.BigEndian`. -/
inductive ByteOrder where
  | little
  | big
deriving DecidableEq, Repr

/-- `ByteOrder.Uint16`: first two bytes of the slice, in the given order.
(Go panics on a short slice; every call site passes a slice of length 2,
so out-of-range positions default to 0 and are never exercised.) -/
def ByteOrder.u16 : ByteOrder → List Nat → Nat
  | .big, l => l.getD 0 0 * 256 + l.getD 1 0
  | .little, l => l.getD 1 0 * 256 + l.getD 0 0

/-- `ByteOrder.Uint32`: first four bytes of the slice, in the given order. -/
def ByteOrder.u32 : ByteOrder → List Nat → Nat
  | .big, l => ((l.getD 0 0 * 256 + l.getD 1 0) * 256 + l.getD 2 0) * 256 + l.getD 3 0
  | .little, l => ((l.getD 3 0 * 256 + l.getD 2 0) * 256 + l.getD 1 0) * 256 + l.getD 0 0

/-- Reinterpret a 16-bit unsigned value as Go `int16`. -/
def toInt16 (u : Nat) : Int :=
  if u < 32768 then (u : Int) else (u : Int) - 65536

/-- Wrap an integer into the `int16` range `[-32768, 32767]`
(two's-complement truncation, which is what every Go `int16`
operation and every conversion to `int16` performs). -/
def wrap16 (x : Int) : Int :=
  (x + 32768) % 65536 - 32768

/-- Go `int16` addition (wraps on overflow). -/
def i16add (a b : Int) : Int := wrap16 (a + b)

/-- Go `int16` multiplication (wraps on overflow). -/
def i16mul (a b : Int) : Int := wrap16 (a * b)

/-- `binary.Read(r, byteOrder, &tagCount)` for an `int16` destination,
reading from the remaining bytes `l` of a `bytes.Reader`: `io.ReadFull`
of 2 bytes, failing (`io.EOF` / `io.ErrUnexpectedEOF`) when fewer than
2 bytes remain. -/
def readInt16 (bo : ByteOrder) (l : List Nat) : Option Int :=
  match l with
  | a :: b :: _ => some (toInt16 (bo.u16 [a, b]))
  | _ => none

/-- Result of one `bytes.Buffer.Read(p)` with `len(p) = k`:
the bytes placed in `p` (`p` is freshly zeroed, so a short read leaves
trailing zeros), the count `n` of bytes read, and whether a non-nil
error (`io.EOF`, returned exactly when the buffer is empty) occurred. -/
structure ReadRes where
  bytes : List Nat
  n : Nat
  err : Bool
deriving DecidableEq, Repr

/-- `bytes.Buffer.Read` on a buffer whose remaining content is `l`,
into a fresh zeroed slice of length `k`. -/
def buffRead (k : Nat) (l : List Nat) : ReadRes :=
  if l.isEmpty then { bytes := List.replicate k 0, n := 0, err := true }
  else { bytes := l.take k ++ List.replicate (k - l.length) 0, n := min k l.length, err := false }

/-- The exif identifier `{'E', 'x', 'i', 'f', 0x00, 0x00}` (`exifIdent`). -/
def exifIdent : List Nat := [69, 120, 105, 102, 0, 0]

/-- Error cases of `parseImageHeaders` (in source order). -/
inductive PErr where
  | markerNotFound
  | dataLengthRead
  | exifIdentRead
  | byteOrderRead
  | unknownByteOrder
  | tiffMagic
  | ifdOffsetRead
deriving DecidableEq, Repr

/-- `foundAPPMarker(raw, offset)`:
`raw[offset] == 0xFF && raw[offset+1] == 0xE1` (every caller has
`offset + 1 < len raw`, so the defaulted accesses are in range). -/
def foundAPPMarker (raw : List Nat) (offset : Nat) : Bool :=
  (raw.getD offset 0 == 255) && (raw.getD (offset + 1) 0 == 225)

/-- `locateAPPMarker(raw)`: the scan
`for markerOffset = 0; markerOffset < len(raw)-1; markerOffset++`
returning the first `markerOffset` where `foundAPPMarker` holds, i.e.
the first match in the candidate range `[0, len raw - 1)`; `none`
models the `(-1, error)` return. -/
def locateAPPMarker (raw : List Nat) : Option Nat :=
  (List.range (raw.length - 1)).find? (foundAPPMarker raw)

/-- `binary.BigEndian.Uint16` as used for the data-length field. -/
def beU16 (l : List Nat) : Nat := ByteOrder.big.u16 l

/-- The `switch string(bo)` on the byte-order marker: `"II"` (0x49 0x49)
is little-endian, `"MM"` (0x4D 0x4D) big-endian, anything else an error. -/
def parseByteOrder (l : List Nat) : Option ByteOrder :=
  if l = [73, 73] then some .little
  else if l = [77, 77] then some .big
  else none

/-- `parseImageHeaders(raw)`: locate the APP1 marker, then sequentially
read from a `bytes.Buffer` over `raw[markerOffset+2:]` the 2-byte data
length (big-endian, minus 2), the 6-byte exif identifier (compared
against `exifIdent` only inside the short-read branch, as in the
source), the 2-byte byte order, the 2-byte magic 42, and the 4-byte
first-IFD offset; an offset field equal to 8 is replaced by
`len(raw) - buff.Len()`, the absolute cursor position.  Successive
buffer states are written as absolute drops: the buffer after `j`
reads totalling `c` bytes is `raw.drop (markerOffset + 2 + c)`
(`(l.drop a).drop b = l.drop (a + b)` holds unconditionally, also
after short reads, where both sides are `[]`). -/
def parseImageHeaders (raw : List Nat) : Except PErr (Nat × Int × ByteOrder) :=
  match locateAPPMarker raw with
  | none => .error .markerNotFound
  | some m =>
    let r1 := buffRead 2 (raw.drop (m + 2))
    if r1.err = true ∨ r1.n ≠ 2 then .error .dataLengthRead
    else
      let dataLength : Int := (beU16 r1.bytes : Int) - 2
      let r2 := buffRead 6 (raw.drop (m + 4))
      if (r2.err = true ∨ r2.n ≠ 6) ∧ r2.bytes ≠ exifIdent then .error .exifIdentRead
      else
        let r3 := buffRead 2 (raw.drop (m + 10))
        if r3.err = true ∨ r3.n ≠ 2 then .error .byteOrderRead
        else
          match parseByteOrder r3.bytes with
          | none => .error .unknownByteOrder
          | some byteOrder =>
            let r4 := buffRead 2 (raw.drop (m + 12))
            if r4.err = true ∨ byteOrder.u16 r4.bytes ≠ 42 then .error .tiffMagic
            else
              let r5 := buffRead 4 (raw.drop (m + 14))
              if r5.err = true ∨ r5.n ≠ 4 then .error .ifdOffsetRead
              else
                let ifdOffset0 := byteOrder.u32 r5.bytes
                let ifdOffset :=
                  if ifdOffset0 = 8 then raw.length - (raw.drop (m + 18)).length
                  else ifdOffset0
                .ok (ifdOffset, dataLength, byteOrder)

/-- Error cases of `removeFirstIFD`. -/
inductive IfdErr where
  | truncatedIfd
deriving DecidableEq, Repr

/-- Outcome of `removeFirstIFD`: a returned buffer, a returned error,
or a Go run-time panic. -/
inductive RemResult where
  | ok (out : List Nat)
  | err (e : IfdErr)
  | panicked
deriving DecidableEq, Repr

/-- `removeFirstIFD(raw, ifdOffset, byteOrder)`:
`raw[ifdOffset:]` (panics when `ifdOffset > len raw`), a 2-byte `int16`
tag-count read, then
`exifdEnd := int16(ifdOffset) + tagCountLenSize + tagCount*tagSize + ifdOffsetSize`
evaluated entirely in `int16` (each operation wraps), and
`append(raw[:ifdOffset], raw[exifdEnd:]...)`, which panics when
`exifdEnd` is negative or exceeds `len raw`.  There is no bounds
check between the arithmetic and the slicing. -/
def removeFirstIFD (raw : List Nat) (ifdOffset : Nat) (bo : ByteOrder) : RemResult :=
  if raw.length < ifdOffset then .panicked
  else
    match readInt16 bo (raw.drop ifdOffset) with
    | none => .err .truncatedIfd
    | some tagCount =>
      let exifdEnd := i16add (i16add (i16add (wrap16 (ifdOffset : Int)) 2) (i16mul tagCount 12)) 4
      if exifdEnd < 0 ∨ (raw.length : Int) < exifdEnd then .panicked
      else .ok (raw.take ifdOffset ++ raw.drop exifdEnd.toNat)

/-- Errors of `purgeDirs`. -/
inductive PurgeErr where
  | readTagCount
  | readNextOffset
  | pastEOF
deriving DecidableEq, Repr

/-- Outcome of `purgeDirs`. -/
inductive POutcome where
  | ok (out : List Nat)
  | err (e : PurgeErr)
  | panicked
deriving DecidableEq, Repr

/-- Loop state of `purgeDirs`: the shared backing-array window `buf`
(of the fixed length `len raw`), the current chain `offset`
(a `uint32`), and the `bytes.Reader` position.  A single buffer stands
for `raw`, `result` and the reader's view alike: `result := raw`
aliases `raw`, and on every loop exit and every loop entry `result` is
again exactly the window `[0, len raw)` of the shared array (shown in
the `purgeStep` comment), so one mutable list of constant length is a
faithful state. -/
structure PurgeState where
  buf : List Nat
  offset : Nat
  pos : Nat
deriving DecidableEq, Repr

/-- Result of one `purgeDirs` loop iteration: leave the loop with an
outcome, or continue with a new state. -/
inductive PStep where
  | done (o : POutcome)
  | more (s : PurgeState)
deriving DecidableEq, Repr

/-- One iteration of the `for offset != 0` loop of `purgeDirs`:
seek to `offset`, read the `int16` tag count, seek forward by
`tagCount*tagSize` (an `int16` product; a seek to a negative position
is an error the source ignores, leaving the position unchanged), read
the `uint32` next-IFD offset, break with success when it is 0 or
exceeds the buffer length, otherwise splice with `int16`-computed
bounds and loop, returning the `Offset past EOF` error when the reader
is exhausted.  All reads come from the current, possibly already
spliced, buffer: `ifdReader` wraps the same array that
`append(result[:ifdOffset], filler...)` writes into.

Why no capacity parameter is needed, with `L := len raw` and
`needed := ifdOffset + numOfBytesDiscarded` (both summands
non-negative once the preceding panic checks pass):
`append` writes the filler in place exactly when `needed ≤ cap raw`,
and `cap raw ≥ L` always.  If `needed ≤ L`, in-place is therefore
forced, the filler zeroes `[ifdOffset, needed)` of the shared window,
and the second append copies `raw[exifdEnd:]` onto itself (in the
surviving branch `exifdEnd = needed`, below), leaving
`buf' = take ifdOffset ++ zeros ++ drop needed` of length `L`.  If
`needed > L`, the iteration panics whatever the capacity: `ifdOffset`
and `numOfBytesDiscarded` are each at most 32767, so
`needed ≤ 65534`, and `exifdEnd`, the stepwise-`int16` value of
`ifdOffset + numOfBytesDiscarded`, equals `needed` when
`needed ≤ 32767` (then `exifdEnd > L`, so `raw[exifdEnd:]` is out of
range) and `needed - 65536 < 0` otherwise (a negative slice bound) —
both Go panics.  So the surviving splice branch has
`exifdEnd = needed ≤ L`, and whether an over-long append would have
reallocated is unobservable.  (`result[:ifdOffset]` itself never
over-runs: a non-negative `wrap16 offset'` is `offset' % 65536 ≤
offset' ≤ L`, so the only panic it contributes is a negative bound.) -/
def purgeStep (bo : ByteOrder) (s : PurgeState) : PStep :=
  if s.offset = 0 then .done (.ok s.buf)
  else
    let pos0 := s.offset
    match readInt16 bo (s.buf.drop pos0) with
    | none => .done (.err .readTagCount)
    | some tagCount =>
      let pos1 := pos0 + 2
      let delta := i16mul tagCount 12
      let pos2 := if (pos1 : Int) + delta < 0 then pos1 else ((pos1 : Int) + delta).toNat
      if (s.buf.drop pos2).length < 4 then .done (.err .readNextOffset)
      else
        let offset' := bo.u32 ((s.buf.drop pos2).take 4)
        let pos3 := pos2 + 4
        if s.buf.length < offset' ∨ offset' = 0 then .done (.ok s.buf)
        else
          let exifdEnd := i16add (i16add (i16add (wrap16 (offset' : Int)) 2) (i16mul tagCount 12)) 4
          let ifdOffset := wrap16 (offset' : Int)
          let numOfBytesDiscarded := i16add (i16add 2 (i16mul tagCount 12)) 4
          if numOfBytesDiscarded < 0 then .done .panicked
          else if ifdOffset < 0 then .done .panicked
          else if exifdEnd < 0 ∨ (s.buf.length : Int) < exifdEnd then .done .panicked
          else
            let buf' := s.buf.take ifdOffset.toNat
                ++ List.replicate numOfBytesDiscarded.toNat 0
                ++ s.buf.drop (ifdOffset.toNat + numOfBytesDiscarded.toNat)
            if s.buf.length ≤ pos3 then .done (.err .pastEOF)
            else .more { buf := buf', offset := offset', pos := pos3 }

/-- Iterate `purgeStep` with explicit fuel; `none` means the loop has
not left after `fuel` iterations (the source loop has no bound of its
own, so non-termination shows up as `none` for every fuel). -/
def purgeRun (bo : ByteOrder) : Nat → PurgeState → Option POutcome
  | 0, _ => none
  | fuel + 1, s =>
    match purgeStep bo s with
    | .done o => some o
    | .more s' => purgeRun bo fuel s'

/-- `purgeDirs(raw, ifdOffset, byteOrder)` run with the given fuel:
the shared buffer starts as `raw`, `offset := ifdOffset`, reader at
position 0. -/
def purgeDirs (raw : List Nat) (ifdOffset : Nat) (bo : ByteOrder) (fuel : Nat) : Option POutcome :=
  purgeRun bo fuel { buf := raw, offset := ifdOffset, pos := 0 }

/-- Errors of the `Discard` entry point, tagged by failing stage. -/
inductive DErr where
  | header (e : PErr)
  | ifd (e : IfdErr)
deriving DecidableEq, Repr

/-- Outcome of `Discard`: the bytes written to the output writer,
a returned error (in which case nothing is written), or a panic. -/
inductive DiscardResult where
  | ok (out : List Nat)
  | err (e : DErr)
  | panicked
deriving DecidableEq, Repr

/-- `Discard(file, output)` on the fully-read bytes `raw`:
`parseImageHeaders`, then `removeFirstIFD`, propagating each stage's
error; `output.Write(result)` happens only after both succeed. -/
def Discard (raw : List Nat) : DiscardResult :=
  match parseImageHeaders raw with
  | .error e => .err (.header e)
  | .ok (ifdOffset, _, byteOrder) =>
    match removeFirstIFD raw ifdOffset byteOrder with
    | .ok out => .ok out
    | .err e => .err (.ifd e)
    | .panicked => .panicked

/-! ## Concrete buffers used by the claims -/

/-- The reference fixture from `server/exif_test.go` (`TestDiscardExif`):
2 leading bytes, APP1 marker, length `0x000F`, `Exif\0\0`, `MM`,
magic 42, first-IFD offset 20, a one-tag IFD (tag count 1, one 12-byte
tag, 4-byte next-IFD offset, all zero), and a trailing `FF FF`
— 40 bytes. -/
def testFixture : List Nat :=
  [0, 0, 255, 225, 0, 15, 69, 120, 105, 102, 0, 0, 77, 77, 0, 42, 0, 0, 0, 20,
   0, 1, 0, 0, 0, 0, 0, 0, 0, 0, 0, 0, 0, 0, 0, 0, 0, 0, 255, 255]

/-- The expected output of the reference fixture: its first 20 bytes
followed by the trailing `FF FF` — 22 bytes. -/
def strippedFixture : List Nat :=
  [0, 0, 255, 225, 0, 15, 69, 120, 105, 102, 0, 0, 77, 77, 0, 42, 0, 0, 0, 20, 255, 255]

/-- The 42-byte buffer spelled out in the specification's concrete
scenario: the reference fixture with two additional zero bytes between
the IFD and the trailing `FF FF`. -/
def specFixture42 : List Nat :=
  [0, 0, 255, 225, 0, 15, 69, 120, 105, 102, 0, 0, 77, 77, 0, 42, 0, 0, 0, 20,
   0, 1, 0, 0, 0, 0, 0, 0, 0, 0, 0, 0, 0, 0, 0, 0, 0, 0, 0, 0, 255, 255]

/-- An 18-byte buffer whose six identifier bytes are `AAAAAA`
(0x41) instead of `Exif\0\0`, with otherwise valid APP1/TIFF headers
(`MM`, magic 42, first-IFD offset 20). -/
def wrongIdentBuffer : List Nat :=
  [255, 225, 0, 16, 65, 65, 65, 65, 65, 65, 77, 77, 0, 42, 0, 0, 0, 20]

/-- 65636-byte buffer: 50 zero bytes, the big-endian tag count 5465
(`0x15 0x59`), then 65584 zero bytes.  The IFD computed from offset 50
spans exactly to the end of the buffer (50 + 2 + 5465·12 + 4 = 65636),
but `int16` arithmetic wraps its end to 100. -/
def wrapBuffer : List Nat :=
  List.replicate 50 0 ++ 21 :: 89 :: List.replicate 65584 0

/-- 22-byte buffer: 20 zero bytes then `FF FE`, the big-endian `int16`
tag count -2 at offset 20. -/
def negTagBuffer : List Nat :=
  List.replicate 20 0 ++ [255, 254]

/-- 20-byte buffer holding a self-referential IFD chain for `purgeDirs`
at the small offset 10: a zero tag count at 10..11, the next-IFD offset
10 (pointing back at itself) at 12..15, zeros elsewhere.  Because the
splice zeroes `[10, 16)` of the shared array, the self-pointer is wiped
and the walk terminates on this buffer. -/
def cyclicChain : List Nat :=
  [0, 0, 0, 0, 0, 0, 0, 0, 0, 0, 0, 0, 0, 0, 0, 10, 0, 0, 0, 0]

/-- 65600-byte buffer holding a self-referential IFD chain at the large
offset 65540: a zero tag count at 65540..65541 and the big-endian
next-IFD offset 65540 (`00 01 00 04`) at 65542..65545, zeros elsewhere.
The splice truncates the offset through `int16` to
`wrap16 65540 = 4` and zeroes `[4, 10)` — bytes that are already zero —
while the reader keeps re-reading the untouched self-pointer at 65542,
so the loop state repeats forever. -/
def bigChain : List Nat :=
  List.replicate 65542 0 ++ 0 :: 1 :: 0 :: 4 :: List.replicate 54 0

/-- 8-byte buffer for `purgeDirs`: at offset 2 a zero tag count, then
the next-IFD offset 256 (`0x00000100`), far beyond the buffer. -/
def oobChain : List Nat :=
  [0, 0, 0, 0, 0, 0, 1, 0]

/-- An 18-byte buffer with valid APP1/TIFF headers whose first-IFD
offset field is 18, pointing at the very end of the buffer, so the
tag-count read of `removeFirstIFD` has no bytes to consume. -/
def truncHeader : List Nat :=
  [255, 225, 0, 16, 69, 120, 105, 102, 0, 0, 77, 77, 0, 42, 0, 0, 0, 18]

/-! ## Shared lemmas -/

theorem wrap16_eq_self {x : Int} (h1 : -32768 ≤ x) (h2 : x < 32768) : wrap16 x = x := by
  unfold wrap16
  omega

/-- The `int16` evaluation of
`int16(a) + tagCountLenSize + t*tagSize + ifdOffsetSize` equals the
single two's-complement truncation of the exact integer value. -/
theorem i16chain_eq (a t : Int) :
    i16add (i16add (i16add (wrap16 a) 2) (i16mul t 12)) 4 = wrap16 (a + 2 + t * 12 + 4) := by
  unfold i16add i16mul wrap16
  omega

/-- A full-length `bytes.Buffer.Read` implies enough bytes were
available and the destination holds exactly the next `k` bytes. -/
theorem buffRead_full {k : Nat} {l : List Nat} (hk : 0 < k) (h : (buffRead k l).n = k) :
    k ≤ l.length ∧ (buffRead k l).bytes = l.take k := by
  by_cases he : l.isEmpty = true
  · simp [buffRead, he] at h
    omega
  · simp only [buffRead, he, Bool.false_eq_true, if_false] at h ⊢
    have hle : k ≤ l.length := by omega
    have hz : k - l.length = 0 := by omega
    simp [hz, hle]

/-- A located APP1 marker index satisfies the loop bound
`markerOffset < len raw - 1`. -/
theorem locateAPPMarker_lt {raw : List Nat} {m : Nat}
    (h : locateAPPMarker raw = some m) : m + 1 < raw.length := by
  have hm : m ∈ List.range (raw.length - 1) := List.mem_of_find?_eq_some h
  have := List.mem_range.mp hm
  omega

/-- Structure of a successful `parseImageHeaders` run: the marker was
located at some `m`, at least 16 header bytes follow `m + 2` (so the
buffer reaches to `m + 18`), and the returned offset is the raw 4-byte
field at `m + 14` unless that field is 8, in which case it is the
cursor position `m + 18`. -/
theorem parse_ok_structure (raw : List Nat) (off : Nat) (dl : Int) (bo : ByteOrder)
    (h : parseImageHeaders raw = .ok (off, dl, bo)) :
    ∃ m, locateAPPMarker raw = some m ∧ m + 18 ≤ raw.length ∧
      off = (if bo.u32 ((raw.drop (m + 14)).take 4) = 8
             then m + 18
             else bo.u32 ((raw.drop (m + 14)).take 4)) := by
  simp only [parseImageHeaders] at h
  split at h
  · exact absurd h (by simp)
  rename_i m hm
  split at h
  · exact absurd h (by simp)
  split at h
  · exact absurd h (by simp)
  split at h
  · exact absurd h (by simp)
  split at h
  · exact absurd h (by simp)
  rename_i bo' hbo
  split at h
  · exact absurd h (by simp)
  split at h
  · exact absurd h (by simp)
  rename_i hc5
  push_neg at hc5
  obtain ⟨-, hn5⟩ := hc5
  obtain ⟨hle4, hbytes⟩ := buffRead_full (by omega) hn5
  have hdlen : (raw.drop (m + 14)).length = raw.length - (m + 14) := List.length_drop _ _
  have h18 : m + 18 ≤ raw.length := by omega
  simp only [Except.ok.injEq, Prod.mk.injEq] at h
  obtain ⟨h1, _, h3⟩ := h
  subst h3
  refine ⟨m, hm, h18, ?_⟩
  rw [hbytes] at h1
  have hdl18 : (raw.drop (m + 18)).length = raw.length - (m + 18) := List.length_drop _ _
  rw [hdl18] at h1
  have hcur : raw.length - (raw.length - (m + 18)) = m + 18 := by omega
  rw [hcur] at h1
  exact h1.symm

/-- Symbolic evaluation of one `purgeDirs` iteration with a zero tag
count: when the reads succeed, the next offset `o2` is in range, its
`int16` truncation `w` is non-negative with `w + 6` a valid in-range
end, and the reader is not exhausted, the iteration splices
`[w, w + 6)` with zeros and continues at offset `o2`. -/
theorem purgeStep_zero_tag (bo : ByteOrder) (b : List Nat) (o o2 : Nat) (w : Int) (p : Nat)
    (ho : ¬ o = 0)
    (hread : readInt16 bo (b.drop o) = some 0)
    (hlen4 : ¬ (b.drop (o + 2)).length < 4)
    (hoff2 : bo.u32 ((b.drop (o + 2)).take 4) = o2)
    (ho2a : ¬ (b.length < o2 ∨ o2 = 0))
    (hw : wrap16 (o2 : Int) = w)
    (hwlo : 0 ≤ w) (hwhi : w + 6 < 32768)
    (hwL : w + 6 ≤ (b.length : Int))
    (hpos : ¬ b.length ≤ o + 2 + 4) :
    purgeStep bo { buf := b, offset := o, pos := p }
      = .more { buf := b.take w.toNat ++ List.replicate 6 0 ++ b.drop (w.toNat + 6),
                offset := o2, pos := o + 2 + 4 } := by
  have hmul0 : i16mul 0 12 = 0 := by decide
  have hnum : i16add (i16add 2 0) 4 = (6 : Int) := by decide
  have hchain : i16add (i16add (i16add w 2) 0) 4 = w + 6 := by
    unfold i16add wrap16
    omega
  simp only [purgeStep, hread]
  rw [if_neg ho, hmul0, add_zero]
  rw [if_neg (show ¬ ((o + 2 : Nat) : Int) < 0 by omega)]
  rw [Int.toNat_natCast]
  rw [if_neg hlen4, hoff2]
  rw [if_neg ho2a, hw, hchain, hnum]
  rw [if_neg (show ¬ (6 : Int) < 0 by norm_num)]
  rw [if_neg (show ¬ w < 0 by omega)]
  rw [if_neg (show ¬ (w + 6 < 0 ∨ (b.length : Int) < w + 6) by omega)]
  rw [show ((6 : Int)).toNat = 6 from rfl]
  rw [if_neg hpos]

/-- Unfolding of one fuelled iteration. -/
theorem purgeRun_succ (bo : ByteOrder) (n : Nat) (s : PurgeState) :
    purgeRun bo (n + 1) s
      = (match purgeStep bo s with
         | .done o => some o
         | .more s' => purgeRun bo n s') := rfl

theorem bigChain_length : bigChain.length = 65600 := by
  unfold bigChain
  rw [List.length_append, List.length_replicate, List.length_cons, List.length_cons,
    List.length_cons, List.length_cons, List.length_replicate]

theorem bigChain_drop_65540 :
    bigChain.drop 65540 = 0 :: 0 :: 0 :: 1 :: 0 :: 4 :: List.replicate 54 0 := by
  have hsplit : List.replicate 65542 (0 : Nat) = List.replicate 65540 0 ++ List.replicate 2 0 := by
    rw [← List.replicate_add]
  unfold bigChain
  rw [hsplit, List.append_assoc, List.drop_left' (List.length_replicate 65540 0)]
  rfl

theorem bigChain_drop_65542 :
    bigChain.drop 65542 = 0 :: 1 :: 0 :: 4 :: List.replicate 54 0 := by
  unfold bigChain
  exact List.drop_left' (List.length_replicate 65542 0)

theorem bigChain_splice :
    bigChain.take 4 ++ List.replicate 6 0 ++ bigChain.drop 10 = bigChain := by
  have htake : bigChain.take 4 = List.replicate 4 0 := by
    have hsplit : List.replicate 65542 (0 : Nat) = List.replicate 4 0 ++ List.replicate 65538 0 := by
      rw [← List.replicate_add]
    unfold bigChain
    rw [hsplit, List.append_assoc]
    exact List.take_left' (List.length_replicate 4 0)
  have hdrop : bigChain.drop 10
      = List.replicate 65532 0 ++ 0 :: 1 :: 0 :: 4 :: List.replicate 54 0 := by
    have hsplit : List.replicate 65542 (0 : Nat) = List.replicate 10 0 ++ List.replicate 65532 0 := by
      rw [← List.replicate_add]
    unfold bigChain
    rw [hsplit, List.append_assoc, List.drop_left' (List.length_replicate 10 0)]
  rw [htake, hdrop]
  unfold bigChain
  simp only [← List.append_assoc]
  rw [← List.replicate_add, ← List.replicate_add]

/-- On `bigChain` the iteration step is a self-map regardless of the
carried reader position: the splice zeroes the already-zero bytes
`[4, 10)` while the pointer read at 65542 is untouched. -/
theorem bigChain_step (p : Nat) :
    purgeStep .big { buf := bigChain, offset := 65540, pos := p }
      = .more { buf := bigChain, offset := 65540, pos := 65546 } := by
  have hread : readInt16 .big (bigChain.drop 65540) = some 0 := by
    rw [bigChain_drop_65540]
    rfl
  have hlen4 : ¬ (bigChain.drop (65540 + 2)).length < 4 := by
    rw [show (65540 + 2 : Nat) = 65542 from rfl, bigChain_drop_65542]
    simp only [List.length_cons, List.length_replicate]
    norm_num
  have hoff2 : ByteOrder.big.u32 ((bigChain.drop (65540 + 2)).take 4) = 65540 := by
    rw [show (65540 + 2 : Nat) = 65542 from rfl, bigChain_drop_65542]
    rfl
  have ho2a : ¬ (bigChain.length < 65540 ∨ (65540 : Nat) = 0) := by
    rw [bigChain_length]
    norm_num
  have hwL : (4 : Int) + 6 ≤ (bigChain.length : Int) := by
    rw [bigChain_length]
    norm_num
  have hpos : ¬ bigChain.length ≤ 65540 + 2 + 4 := by
    rw [bigChain_length]
    norm_num
  have h := purgeStep_zero_tag .big bigChain 65540 65540 4 p (by norm_num) hread hlen4 hoff2
    ho2a (by decide) (by norm_num) (by norm_num) hwL hpos
  rw [h, show ((4 : Int)).toNat = 4 from rfl, show (4 + 6 : Nat) = 10 from rfl,
    show (65540 + 2 + 4 : Nat) = 65546 from rfl, bigChain_splice]

/-! ## Claim theorems -/

/-- C1 (counterexample): on the 42-byte buffer spelled out in the claim,
the transform does not produce the claimed 22-byte output (it removes
the 18 IFD bytes at offset 20 and keeps the two extra zero bytes, so
the output is 24 bytes long). -/
theorem C1_counterexample : Discard specFixture42 ≠ .ok strippedFixture := by
  decide

/-- C1 (amended): on the literal 42-byte buffer the transform succeeds
with the 24-byte output `00 00 FF E1 00 0F 45 78 69 66 00 00 4D 4D 00
2A 00 00 00 14 00 00 FF FF` (leading 20 bytes kept, 18 IFD bytes at
offset 20 removed, trailing `00 00 FF FF` kept); on the repository's
actual 40-byte test fixture the transform produces exactly the claimed
22-byte output. -/
theorem C1_fixture_transform :
    Discard specFixture42 =
      .ok [0, 0, 255, 225, 0, 15, 69, 120, 105, 102, 0, 0, 77, 77, 0, 42, 0, 0, 0, 20,
           0, 0, 255, 255] ∧
    Discard testFixture = .ok strippedFixture := by
  exact ⟨by decide, by decide⟩

/-- C3 (counterexample): on the 2-byte buffer `00 01` with IFD offset 0
the exact IFD end 18 exceeds the buffer length, yet `removeFirstIFD`
does not return an `IfdOutOfBounds` error — it panics on the
out-of-range slice `raw[18:]`. -/
theorem C3_counterexample :
    (([0, 1] : List Nat).length : Int) < (0 : Int) + 2 + 1 * 12 + 4 ∧
    readInt16 .big (([0, 1] : List Nat).drop 0) = some 1 ∧
    removeFirstIFD [0, 1] 0 .big = .panicked := by
  exact ⟨by decide, by decide, by decide⟩

/-- C3 (amended): whenever the `int16`-wrapped IFD end is negative or
exceeds the buffer length, `removeFirstIFD` panics (Go slice bounds out
of range) instead of returning an error; there is no bounds check. -/
theorem C3_oob_panics (raw : List Nat) (off : Nat) (bo : ByteOrder) (t : Int)
    (ht : readInt16 bo (raw.drop off) = some t)
    (hoff : off ≤ raw.length)
    (hw : wrap16 ((off : Int) + 2 + t * 12 + 4) < 0 ∨
          (raw.length : Int) < wrap16 ((off : Int) + 2 + t * 12 + 4)) :
    removeFirstIFD raw off bo = .panicked := by
  simp only [removeFirstIFD, ht]
  rw [if_neg (by omega : ¬ raw.length < off), i16chain_eq]
  exact if_pos hw

/-- C3 (witness for the amended theorem). -/
theorem C3_oob_panics_witness : removeFirstIFD [0, 0, 0, 1] 2 .big = .panicked :=
  C3_oob_panics [0, 0, 0, 1] 2 .big 1 (by decide) (by decide) (by decide)

/-- C4: every buffer shorter than the 18-byte minimum header makes
`parseImageHeaders` return an error (the embedding is total, so no
panic or out-of-range access exists on this path, and success is
impossible). -/
theorem C4_short_input_errors (raw : List Nat) (h : raw.length < 18) :
    ∃ e, parseImageHeaders raw = .error e := by
  cases hp : parseImageHeaders raw with
  | error e => exact ⟨e, rfl⟩
  | ok x =>
    obtain ⟨off, dl, bo⟩ := x
    obtain ⟨m, -, hlen, -⟩ := parse_ok_structure raw off dl bo hp
    omega

/-- C4 (witness): a 2-byte buffer consisting of just the APP1 marker. -/
theorem C4_short_input_errors_witness :
    ∃ e, parseImageHeaders [255, 225] = .error e :=
  C4_short_input_errors [255, 225] (by decide)

/-- C5 (code bug): a buffer whose six identifier bytes are `AAAAAA`
rather than `Exif\0\0` is parsed successfully — the equality check
against `exifIdent` sits inside the short-read branch, so a complete
read of wrong identifier bytes is never compared, contradicting the
source's own `check exif identifier` comment and the spec. -/
theorem C5_wrong_ident_accepted :
    (wrongIdentBuffer.drop 4).take 6 ≠ exifIdent ∧
    parseImageHeaders wrongIdentBuffer = .ok (20, 14, .big) := by
  exact ⟨by decide, by rfl⟩

/-- C6: on every successful parse the returned offset is the raw 4-byte
first-IFD field located 14 bytes after the marker, except that a raw
value of 8 is translated to the absolute cursor position `m + 18`, the
byte immediately after the offset field. -/
theorem C6_offset_translation (raw : List Nat) (off : Nat) (dl : Int) (bo : ByteOrder)
    (h : parseImageHeaders raw = .ok (off, dl, bo)) :
    ∃ m, locateAPPMarker raw = some m ∧ m + 18 ≤ raw.length ∧
      off = (if bo.u32 ((raw.drop (m + 14)).take 4) = 8
             then m + 18
             else bo.u32 ((raw.drop (m + 14)).take 4)) :=
  parse_ok_structure raw off dl bo h

/-- C6 (witness): the reference fixture parses to offset 20, the raw
non-8 field value, returned untranslated. -/
theorem C6_offset_translation_witness :
    ∃ m, locateAPPMarker testFixture = some m ∧ m + 18 ≤ testFixture.length ∧
      20 = (if ByteOrder.big.u32 ((testFixture.drop (m + 14)).take 4) = 8
            then m + 18
            else ByteOrder.big.u32 ((testFixture.drop (m + 14)).take 4)) :=
  C6_offset_translation testFixture 20 13 .big (by rfl)

/-- C2 (counterexample): on the 65636-byte buffer whose big-endian tag
count at offset 50 is 5465, the IFD span `[50, 50 + 2 + 5465·12 + 4)`
lies exactly inside the buffer, the excision succeeds, yet the output
is 65586 bytes instead of the claimed `65636 - 65586 = 50`: the IFD end
is computed in `int16` arithmetic and wraps from 65636 to 100, so only
the bytes `[50, 100)` are removed. -/
theorem C2_counterexample :
    readInt16 .big (wrapBuffer.drop 50) = some 5465 ∧
    ((50 : Int) + 2 + 5465 * 12 + 4) ≤ (wrapBuffer.length : Int) ∧
    removeFirstIFD wrapBuffer 50 .big = .ok (wrapBuffer.take 50 ++ wrapBuffer.drop 100) ∧
    ¬ (((wrapBuffer.take 50 ++ wrapBuffer.drop 100).length : Int) =
        (wrapBuffer.length : Int) - (2 + 5465 * 12 + 4)) := by
  have hdrop50 : wrapBuffer.drop 50 = 21 :: 89 :: List.replicate 65584 0 := by
    unfold wrapBuffer
    exact List.drop_left' (by simp)
  have hlen : wrapBuffer.length = 65636 := by
    unfold wrapBuffer
    rw [List.length_append, List.length_cons, List.length_cons,
      List.length_replicate, List.length_replicate]
  have hread : readInt16 .big (wrapBuffer.drop 50) = some 5465 := by
    rw [hdrop50]
    rfl
  have hcalc : i16add (i16add (i16add (wrap16 ((50 : Nat) : Int)) 2) (i16mul 5465 12)) 4
      = (100 : Int) := by decide
  have hrem : removeFirstIFD wrapBuffer 50 .big
      = .ok (wrapBuffer.take 50 ++ wrapBuffer.drop 100) := by
    simp only [removeFirstIFD, hread, hcalc, hlen]
    norm_num
    rw [show (100 : Int).toNat = 100 from rfl]
  refine ⟨hread, by rw [hlen]; norm_num, hrem, ?_⟩
  have htake : (wrapBuffer.take 50).length = 50 := by
    rw [List.length_take, hlen]
    omega
  have hdrop : (wrapBuffer.drop 100).length = 65536 := by
    rw [List.length_drop, hlen]
  rw [List.length_append, htake, hdrop, hlen]
  norm_num

/-- C2 (amended): the length/prefix/suffix description of the excision
holds provided additionally that the exact IFD end
`ifdOffset + 2 + N·12 + 4` fits in a (positive) signed 16-bit value, so
that the code's `int16` computation of `exifdEnd` does not wrap. -/
theorem C2_excision_shape (raw : List Nat) (off : Nat) (bo : ByteOrder) (t : Int)
    (out : List Nat)
    (ht : readInt16 bo (raw.drop off) = some t)
    (hlow : (off : Int) ≤ (off : Int) + 2 + t * 12 + 4)
    (hhigh : (off : Int) + 2 + t * 12 + 4 ≤ (raw.length : Int))
    (hfit : (off : Int) + 2 + t * 12 + 4 < 32768)
    (hok : removeFirstIFD raw off bo = .ok out) :
    ((out.length : Int) = (raw.length : Int) - (2 + t * 12 + 4)) ∧
    out.take off = raw.take off ∧
    out.drop off = raw.drop ((off : Int) + 2 + t * 12 + 4).toNat := by
  have hwrap : i16add (i16add (i16add (wrap16 ((off : Nat) : Int)) 2) (i16mul t 12)) 4
      = (off : Int) + 2 + t * 12 + 4 := by
    rw [i16chain_eq]
    exact wrap16_eq_self (by omega) hfit
  simp only [removeFirstIFD, ht, hwrap] at hok
  split at hok
  · exact absurd hok (by simp)
  split at hok
  · exact absurd hok (by simp)
  rename_i hnpanic
  push_neg at hnpanic
  simp only [RemResult.ok.injEq] at hok
  subst hok
  have hoff : off ≤ raw.length := by omega
  have htoNat : ((((off : Int) + 2 + t * 12 + 4).toNat : Nat) : Int)
      = (off : Int) + 2 + t * 12 + 4 :=
    Int.toNat_of_nonneg (by omega)
  have htake : (raw.take off).length = off := by
    rw [List.length_take]
    omega
  refine ⟨?_, List.take_left' htake, List.drop_left' htake⟩
  rw [List.length_append, htake, List.length_drop]
  push_cast
  omega

/-- C2 (witness for the amended theorem): the reference fixture,
tag count 1, IFD end 38. -/
theorem C2_excision_shape_witness :
    (((testFixture.take 20 ++ testFixture.drop 38).length : Int) =
        (testFixture.length : Int) - (2 + 1 * 12 + 4)) ∧
    (testFixture.take 20 ++ testFixture.drop 38).take 20 = testFixture.take 20 ∧
    (testFixture.take 20 ++ testFixture.drop 38).drop 20 =
      testFixture.drop (((20 : Nat) : Int) + 2 + 1 * 12 + 4).toNat :=
  C2_excision_shape testFixture 20 .big 1 (testFixture.take 20 ++ testFixture.drop 38)
    (by decide) (by decide) (by decide) (by decide) (by decide)

/-- C7 (counterexample): the transform succeeds on the reference
fixture, and a second run on its output does not fail with
`MarkerNotFound` — the output still contains the APP1 marker and TIFF
header, so the second run re-parses them. -/
theorem C7_counterexample :
    Discard testFixture = .ok strippedFixture ∧
    Discard strippedFixture ≠ .err (.header .markerNotFound) := by
  exact ⟨by decide, by decide⟩

/-- C7 (amended): a second run on the stripped reference output
succeeds (the trailing `FF FF` is read as tag count -1, wrapping the
IFD end to 14 < 20), returning a 28-byte buffer in which the 6 bytes
`[14, 20)` of the header are duplicated — not a `MarkerNotFound`
failure and not a no-op. -/
theorem C7_second_run_succeeds :
    Discard strippedFixture =
      .ok [0, 0, 255, 225, 0, 15, 69, 120, 105, 102, 0, 0, 77, 77, 0, 42, 0, 0, 0, 20,
           0, 42, 0, 0, 0, 20, 255, 255] ∧
    Discard strippedFixture ≠ .ok strippedFixture := by
  exact ⟨by decide, by decide⟩

/-- C8: `Discard` propagates the failing stage's error and produces no
output on failure — a header-parse error is returned tagged as the
header stage's, and an IFD-removal error as the removal stage's, the
`err` outcome carrying no bytes (`output.Write` is only reached on
success). -/
theorem C8_error_propagation (raw : List Nat) :
    (∀ e, parseImageHeaders raw = .error e → Discard raw = .err (.header e)) ∧
    (∀ off dl bo e, parseImageHeaders raw = .ok (off, dl, bo) →
      removeFirstIFD raw off bo = .err e → Discard raw = .err (.ifd e)) := by
  constructor
  · intro e he
    simp only [Discard, he]
  · intro off dl bo e hp hr
    simp only [Discard, hp, hr]

/-- C8 (witness): the empty input fails at the header stage with
`markerNotFound`; an 18-byte valid header whose IFD offset points at
the end of the buffer fails at the removal stage with `truncatedIfd`. -/
theorem C8_error_propagation_witness :
    Discard [] = .err (.header .markerNotFound) ∧
    Discard truncHeader = .err (.ifd .truncatedIfd) := by
  constructor
  · exact (C8_error_propagation []).1 .markerNotFound (by rfl)
  · exact (C8_error_propagation truncHeader).2 18 14 .big .truncatedIfd (by rfl) (by decide)

/-- C9 (counterexample): a chain whose next-IFD offset (256) exceeds
the 8-byte buffer makes `purgeDirs` break out of its loop and return
the untouched buffer successfully — there is no `ChainOutOfBounds`
error. -/
theorem C9_counterexample :
    ByteOrder.big.u32 ((oobChain.drop 4).take 4) = 256 ∧
    oobChain.length = 8 ∧
    purgeDirs oobChain 2 .big 3 = some (.ok oobChain) := by
  exact ⟨by decide, by decide, by decide⟩

/-- C9 (amended): the `purgeDirs` walk reports no bounds error and is
not total.  An out-of-bounds next-IFD offset silently terminates the
walk with success; a self-referential chain at a small offset also
terminates, because the in-place splice zeroes its own pointer in the
shared array; but a self-referential chain at an offset of 65536 or
more in a long buffer loops forever — `int16(offset)` truncation sends
the splice to low bytes the reader never revisits, making the loop
state a fixed point, so no fuel suffices. -/
theorem C9_chain_walk :
    (∀ fuel, purgeDirs bigChain 65540 .big fuel = none) ∧
    purgeDirs oobChain 2 .big 3 = some (.ok oobChain) ∧
    purgeDirs cyclicChain 10 .big 3 = some (.ok (List.replicate 20 0)) := by
  refine ⟨?_, by decide, by decide⟩
  have hrun : ∀ fuel p, purgeRun .big fuel { buf := bigChain, offset := 65540, pos := p }
      = none := by
    intro fuel
    induction fuel with
    | zero => intro p; rfl
    | succ n ih =>
      intro p
      rewrite [purgeRun_succ, bigChain_step]
      exact ih 65546
  intro fuel
  exact hrun fuel 0

/-- C10: there is a buffer, offset and byte order on which
`removeFirstIFD` succeeds yet returns an output at least as long as the
input: a tag count with the high bit set (here `0xFFFE`, read as the
signed value -2) makes the `int16` IFD end fall before the IFD offset,
so the splice duplicates bytes instead of removing any. -/
theorem C10_growing_success :
    ∃ (raw : List Nat) (off : Nat) (bo : ByteOrder) (t : Int) (out : List Nat),
      readInt16 bo (raw.drop off) = some t ∧ t < 0 ∧
      removeFirstIFD raw off bo = .ok out ∧ ¬ out.length < raw.length := by
  refine ⟨negTagBuffer, 20, .big, -2, negTagBuffer.take 20 ++ negTagBuffer.drop 2,
    by decide, by decide, by decide, by decide⟩

end ExifGo
